import Mathlib

/-!
Shallow embedding of the flexcore dataflow framework (Rust) for checking its
natural-language specification.

Source layout embedded here:
- src/src/ports.rs   : Input::fetch (full drain), Output::connect, Output::fire
- src/src/lib.rs     : an older coexisting snapshot: its own Input::fetch
                       (one try_recv per receiver), Output::fire, the region
                       thread loop inside Infrastructure::run, and
                       RunningInfrastructure::drop
- src/src/region.rs  : RegionBuilder::build
- src/src/node.rs    : trait Node (tick, process_input)

Modelling conventions: an mpsc channel is a FIFO queue (List, oldest value at
the head; send appends at the back). A value of type T with Clone is modelled
with value semantics, so clone is the identity. A Rust panic (any .expect)
is modelled as Except.error carrying the expect message. Durations are Nat
(nanoseconds).
-/

namespace Flexcore

/-- Receiver::try_recv on a FIFO queue: returns the oldest value and the rest
of the queue, or none when the queue is empty. Never blocks. -/
def tryRecv (q : List α) : Option (α × List α) :=
  match q with
  | [] => none
  | x :: xs => some (x, xs)

/-- Inner loop of Input::fetch in src/src/ports.rs (the labelled read_empty
loop, lines 13-18): repeatedly try_recv from one receiver, pushing each value
onto the shared ret vector, until try_recv errs. Returns the grown ret and the
remaining queue. -/
def drainLoop (q : List α) (ret : List α) : List α × List α :=
  match q with
  | [] => (ret, [])
  | x :: xs => drainLoop xs (ret ++ [x])

/-- Outer loop of Input::fetch in src/src/ports.rs (lines 10-21): visit the
receivers in connection order, draining each one fully into the single ret
vector. Returns ret together with the residual queues. -/
def fetchAux (ret : List α) (rx : List (List α)) : List α × List (List α) :=
  match rx with
  | [] => (ret, [])
  | q :: rest =>
    let p := drainLoop q ret
    let o := fetchAux p.1 rest
    (o.1, p.2 :: o.2)

/-- Input::fetch from src/src/ports.rs: the queues of the connected receivers,
in connection order, are drained into one vector. -/
def fetchPorts (rx : List (List α)) : List α × List (List α) :=
  fetchAux [] rx

/-- Loop of the older Input::fetch snapshot in src/src/lib.rs (lines 108-117):
for each receiver exactly one try_recv; a received value is pushed onto ret,
an error is ignored and the receiver is left as it is. -/
def fetchLibAux (ret : List α) (rx : List (List α)) : List α × List (List α) :=
  match rx with
  | [] => (ret, [])
  | q :: rest =>
    match tryRecv q with
    | some dq =>
      let o := fetchLibAux (ret ++ [dq.1]) rest
      (o.1, dq.2 :: o.2)
    | none =>
      let o := fetchLibAux ret rest
      (o.1, q :: o.2)

/-- Input::fetch from src/src/lib.rs (the older coexisting snapshot). -/
def fetchLib (rx : List (List α)) : List α × List (List α) :=
  fetchLibAux [] rx

/-- One mpsc transport as created by Output::connect: its queue of in-flight
values and whether the receiving end is still alive (the receiver has not
been dropped). Sender::send fails exactly when alive is false. -/
structure Transport (α : Type) where
  queue : List α
  alive : Bool
deriving DecidableEq, Repr

/-- Sender::send: enqueue a value at the back, or err when the peer receiver
has been destroyed. -/
def Transport.send (tr : Transport α) (t : α) : Except String (Transport α) :=
  if tr.alive then .ok { tr with queue := tr.queue ++ [t] } else .error "send"

/-- Output::fire from src/src/ports.rs lines 20-24 (textually identical in
src/src/lib.rs lines 131-135): for every connected sender in connection order,
send a clone of the value; the result of send is unwrapped with
expect("Cannot send message"), so a dead peer panics out of fire. The panic is
modelled as Except.error with the expect message; the state after a panic is
unwound, so no updated transport list is returned in that case. -/
def fire (txs : List (Transport α)) (t : α) : Except String (List (Transport α)) :=
  match txs with
  | [] => .ok []
  | tr :: rest =>
    match tr.send t with
    | .ok tr' => (fire rest t).map (fun l => tr' :: l)
    | .error _ => .error "Cannot send message"

/-- State produced by connecting one fresh Output to n Inputs with
Output::connect (src/src/ports.rs lines 13-17): each call pushes one fresh
channel, so the output holds n transports, each empty and alive. -/
def fanOut (α : Type) (n : Nat) : List (Transport α) :=
  List.replicate n ⟨[], true⟩

/-- Observable event of the region scheduling loop: a call of tick or of
process_input on the node with the given registration index. -/
inductive Event (ν : Type) where
  | tick (n : ν)
  | procInput (n : ν)
deriving DecidableEq, Repr

/-- The node loop of one cycle of the region thread in src/src/lib.rs lines
40-43: for each node in registration order, call tick() then process_input().
Nodes are identified by their registration entries. -/
def cycleTrace (nodes : List ν) : List (Event ν) :=
  match nodes with
  | [] => []
  | n :: rest => Event.tick n :: Event.procInput n :: cycleTrace rest

/-- A region as in src/src/lib.rs: name, tick period (a duration, in
nanoseconds), and the registered nodes in order, identified by indices. -/
structure Region where
  name : String
  tick : Nat
  nodes : List Nat
deriving DecidableEq, Repr

/-- One iteration of the region thread loop in src/src/lib.rs lines 36-45,
after the exit-flag check: the trace of node calls produced by lines 40-43 and
the duration passed to thread::sleep at line 44, which is the full
region.tick. The source measures no elapsed time, so the plan has no such
input. -/
def cyclePlan (r : Region) : List (Event Nat) × Nat :=
  (cycleTrace r.nodes, r.tick)

/-- The region thread loop of src/src/lib.rs run for k non-exiting cycles:
accumulated trace of node calls and total slept duration. -/
def runCycles (r : Region) (k : Nat) : List (Event Nat) × Nat :=
  match k with
  | 0 => ([], 0)
  | Nat.succ k =>
    let p := runCycles r k
    (p.1 ++ (cyclePlan r).1, p.2 + (cyclePlan r).2)

/-- Outcome that JoinHandle::join would report for one spawned region thread:
ok, or err because that thread panicked. -/
inductive JoinOutcome where
  | ok
  | panicked
deriving DecidableEq, Repr

/-- True iff join on this thread succeeds. -/
def JoinOutcome.isOk : JoinOutcome → Bool
  | .ok => true
  | .panicked => false

/-- The join loop of RunningInfrastructure::drop in src/src/lib.rs lines
63-66: take the handles and join each in order, unwrapping with
expect("Cannot join thread"). On success returns the number of threads
joined; a failed join panics, modelled as Except.error, and the handles after
it are dropped without being joined. -/
def joinAll : List JoinOutcome → Except String Nat
  | [] => .ok 0
  | .ok :: rest => (joinAll rest).map (fun n => n + 1)
  | .panicked :: _ => .error "Cannot join thread"

/-- The running handle of src/src/lib.rs: one join outcome per spawned region
thread, and the shared atomic exit flag. -/
structure RunningInfrastructure where
  threads : List JoinOutcome
  exitSignal : Bool
deriving DecidableEq, Repr

/-- Drop for RunningInfrastructure (src/src/lib.rs lines 60-68): swap the
shared exit flag to true, then join every thread with
expect("Cannot join thread"). Result: the final value of the exit flag, and
either the number of threads joined or the panic. -/
def dropRunning (r : RunningInfrastructure) : Bool × Except String Nat :=
  (true, joinAll r.threads)

/-- Modelled from the spec: the error enum FlexcoreError is referenced by
src/src/region.rs (variant NoNodes) but its definition is absent from src;
section 7 of the spec names exactly two structural errors, no regions
configured and a region configured with no nodes. -/
inductive FlexcoreError where
  | NoRegions
  | NoNodes
deriving DecidableEq, Repr

/-- Accumulating infrastructure builder, referenced by src/src/region.rs as
the field infra of RegionBuilder: the regions built so far, in order. -/
structure InfrastructureBuilder where
  regions : List Region
deriving DecidableEq, Repr

/-- Region builder of src/src/region.rs: name, tick period, the nodes added
with with_node, and the accumulated infrastructure builder it was opened
from. -/
structure RegionBuilder where
  name : String
  tick : Nat
  nodes : List Nat
  infra : InfrastructureBuilder
deriving DecidableEq, Repr

/-- RegionBuilder::build from src/src/region.rs lines 17-29: if no nodes were
assigned, log an error and return Err(FlexcoreError::NoNodes), consuming self
and with it the accumulated builder state; otherwise push the sealed region
onto the accumulated infrastructure builder and return it. -/
def RegionBuilder.build (b : RegionBuilder) : Except FlexcoreError InfrastructureBuilder :=
  if b.nodes.isEmpty then .error FlexcoreError.NoNodes
  else .ok { regions := b.infra.regions ++ [⟨b.name, b.tick, b.nodes⟩] }

/-- A validated infrastructure ready to run. -/
structure Infrastructure where
  regions : List Region
deriving DecidableEq, Repr

/-- Modelled from the spec: InfrastructureBuilder::build is referenced by the
example program but absent from src; per section 4.4 of the spec, finalizing
validates that at least one region is configured, rejecting zero regions. -/
def InfrastructureBuilder.build (b : InfrastructureBuilder) : Except FlexcoreError Infrastructure :=
  if b.regions.isEmpty then .error FlexcoreError.NoRegions
  else .ok ⟨b.regions⟩

/-- Threads spawned for a finalization result: the start phase
(Infrastructure::run, src/src/lib.rs lines 26-50) spawns one thread per
region and is reachable only from a successful build; a failed build spawns
none. -/
def threadsSpawned : Except FlexcoreError Infrastructure → Nat
  | .error _ => 0
  | .ok i => i.regions.length

/-! Helper lemmas shared by several claims. -/

theorem drainLoop_eq (q ret : List α) : drainLoop q ret = (ret ++ q, []) := by
  induction q generalizing ret with
  | nil => simp [drainLoop]
  | cons x xs ih => simp [drainLoop, ih]

theorem fetchAux_eq (rx : List (List α)) (ret : List α) :
    fetchAux ret rx = (ret ++ rx.flatten, rx.map (fun _ => [])) := by
  induction rx generalizing ret with
  | nil => simp [fetchAux]
  | cons q rest ih => simp [fetchAux, drainLoop_eq, ih]

theorem fetchPorts_eq (rx : List (List α)) :
    fetchPorts rx = (rx.flatten, rx.map (fun _ => [])) := by
  simp [fetchPorts, fetchAux_eq]

theorem fire_spec (txs : List (Transport α)) (t : α) :
    fire txs t =
      if txs.all (fun tr => tr.alive) then
        Except.ok (txs.map (fun tr => ⟨tr.queue ++ [t], tr.alive⟩))
      else Except.error "Cannot send message" := by
  induction txs with
  | nil => simp [fire]
  | cons tr rest ih =>
    by_cases h : tr.alive = true
    · by_cases h2 : rest.all (fun tr => tr.alive) = true <;>
        simp [fire, Transport.send, h, h2, ih, Except.map]
    · simp [fire, Transport.send, h]

theorem fetchLibAux_eq_fetchAux (rx : List (List α)) (ret : List α)
    (h : ∀ q ∈ rx, q.length ≤ 1) :
    fetchLibAux ret rx = fetchAux ret rx := by
  induction rx generalizing ret with
  | nil => rfl
  | cons q rest ih =>
    have hrest : ∀ p ∈ rest, p.length ≤ 1 := fun p hp => h p (List.mem_cons_of_mem _ hp)
    have hq : q.length ≤ 1 := h q (List.mem_cons_self q rest)
    cases q with
    | nil => simp [fetchLibAux, fetchAux, tryRecv, drainLoop, ih _ hrest]
    | cons x xs =>
      cases xs with
      | nil => simp [fetchLibAux, fetchAux, tryRecv, drainLoop, ih _ hrest]
      | cons y ys => simp at hq

theorem cycleTrace_length (ns : List ν) : (cycleTrace ns).length = 2 * ns.length := by
  induction ns with
  | nil => simp [cycleTrace]
  | cons n rest ih =>
    simp [cycleTrace, ih]
    ring

theorem cycleTrace_get (ns : List ν) (i : Nat) (hi : i < ns.length) :
    (cycleTrace ns)[2 * i]? = some (Event.tick ns[i]) ∧
    (cycleTrace ns)[2 * i + 1]? = some (Event.procInput ns[i]) := by
  induction ns generalizing i with
  | nil => simp at hi
  | cons n rest ih =>
    cases i with
    | zero => simp [cycleTrace]
    | succ j =>
      have hj : j < rest.length := by simpa using hi
      have h2 : 2 * (j + 1) = 2 * j + 1 + 1 := by ring
      rw [h2]
      simpa [cycleTrace] using ih j hj

theorem joinAll_eq (ts : List JoinOutcome) :
    joinAll ts =
      if ts.all JoinOutcome.isOk then Except.ok ts.length
      else Except.error "Cannot join thread" := by
  induction ts with
  | nil => simp [joinAll]
  | cons t rest ih =>
    cases t with
    | ok =>
      by_cases h2 : rest.all JoinOutcome.isOk = true <;>
        simp [joinAll, JoinOutcome.isOk, h2, ih, Except.map]
    | panicked => simp [joinAll, JoinOutcome.isOk]

/-! Claim theorems. -/

/-- C1: for every Input port state, fetch (src/src/ports.rs) drains all
currently queued values across every connected transport, returning them as
one sequence, in per-transport retrieval (FIFO) order with transports visited
in connection order — exactly the concatenation of the queues; it leaves
every queue empty, and when nothing is queued on any transport it returns the
empty sequence. As a structurally recursive total function it cannot block. -/
theorem fetch_drains_all (qs : List (List α)) :
    (fetchPorts qs).1 = qs.flatten ∧
    (fetchPorts qs).2 = qs.map (fun _ => ([] : List α)) ∧
    ((∀ q ∈ qs, q = []) → (fetchPorts qs).1 = []) := by
  refine ⟨by simp [fetchPorts_eq], by simp [fetchPorts_eq], fun h => ?_⟩
  simp only [fetchPorts_eq]
  exact List.flatten_eq_nil_iff.mpr h

/-- Witness for C1 at a concrete empty-queue state. -/
theorem fetch_drains_all_witness :
    (fetchPorts ([[], []] : List (List Nat))).1 = [] :=
  (fetch_drains_all [[], []]).2.2 (by decide)

/-- C3: for a region with at least one node, one scheduling cycle produces
exactly the trace tick, process_input for node 0, then node 1, ... : the
trace has length 2n and position 2i holds tick of the i-th registered node,
position 2i+1 its process_input — so each node gets each call exactly once,
in registration order, tick always first. -/
theorem cycle_ticks_then_processes (ns : List ν) (h : ns ≠ []) :
    (cycleTrace ns).length = 2 * ns.length ∧
    ∀ i, (hi : i < ns.length) →
      (cycleTrace ns)[2 * i]? = some (Event.tick ns[i]) ∧
      (cycleTrace ns)[2 * i + 1]? = some (Event.procInput ns[i]) :=
  ⟨cycleTrace_length ns, fun i hi => cycleTrace_get ns i hi⟩

/-- Witness for C3 with two concrete nodes. -/
theorem cycle_ticks_then_processes_witness :
    (cycleTrace [7, 9]).length = 4 ∧
    (cycleTrace [7, 9])[0]? = some (Event.tick 7) ∧
    (cycleTrace [7, 9])[1]? = some (Event.procInput 7) := by
  have h := cycle_ticks_then_processes [7, 9] (by decide)
  exact ⟨h.1, (h.2 0 (by decide)).1, (h.2 0 (by decide)).2⟩

/-- C4: after connecting one Output to N fresh Inputs (N at least 1), firing
a value v succeeds and enqueues exactly one copy of v per connected
transport; every one of the N Inputs then fetches exactly the sequence
consisting of v (clone has value semantics, so the copy is value-equal). -/
theorem fire_fanout_delivers (n : Nat) (v : α) (h : 1 ≤ n) :
    fire (fanOut α n) v = Except.ok (List.replicate n ⟨[v], true⟩) ∧
    (List.replicate n (⟨[v], true⟩ : Transport α)).length = n ∧
    ∀ tr ∈ List.replicate n (⟨[v], true⟩ : Transport α),
      (fetchPorts [tr.queue]).1 = [v] := by
  refine ⟨?_, by simp, fun tr htr => ?_⟩
  · simp [fire_spec, fanOut, List.all_eq_true]
  · have : tr = ⟨[v], true⟩ := List.eq_of_mem_replicate htr
    simp [this, fetchPorts_eq]

/-- Witness for C4 at N = 2 with value 5. -/
theorem fire_fanout_delivers_witness :
    fire (fanOut Nat 2) 5 = Except.ok (List.replicate 2 ⟨[5], true⟩) ∧
    (fetchPorts [[5]]).1 = [5] := by
  have h := fire_fanout_delivers 2 5 (by decide)
  exact ⟨h.1, h.2.2 ⟨[5], true⟩ (by decide)⟩

/-- C5: an Input connected to N sources (N at least 1) holds one queue per
source in connection order; its next fetch returns the concatenation of the
queues, so when every source fired exactly one value the fetch returns
exactly N values, and in general each individual source queue appears inside
the result as a sublist in its own send order (order across sources is the
fixed interleaving by connection order, which the claim leaves
unspecified). -/
theorem fetch_fanin (qs : List (List α)) (h : 1 ≤ qs.length) :
    (fetchPorts qs).1 = qs.flatten ∧
    ((∀ q ∈ qs, q.length = 1) → (fetchPorts qs).1.length = qs.length) ∧
    ∀ q ∈ qs, List.Sublist q (fetchPorts qs).1 := by
  refine ⟨by simp [fetchPorts_eq], fun h1 => ?_, fun q hq => ?_⟩
  · simp only [fetchPorts_eq, List.length_flatten]
    calc (qs.map List.length).sum = (qs.map (fun _ => 1)).sum := by
          exact congrArg List.sum (List.map_congr_left h1)
      _ = qs.length := by simp [List.map_const]
  · simp only [fetchPorts_eq]
    exact List.sublist_flatten_of_mem hq

/-- Witness for C5 with two sources, one value each. -/
theorem fetch_fanin_witness :
    (fetchPorts [[1], [2]]).1 = [1, 2] ∧ (fetchPorts [[(1 : Nat)], [2]]).1.length = 2 := by
  have h := fetch_fanin [[1], [2]] (by decide)
  exact ⟨h.1, h.2.1 (by decide)⟩

/-- C2 counterexample: in the loop of Infrastructure::run (src/src/lib.rs
lines 36-45) the sleep passed at line 44 is the full region.tick,
unconditionally; no elapsed wall time is measured. For a region with tick
period 3 and a cycle whose node work took 5 (elapsed exceeds the period), the
claim requires proceeding with no sleep (0), but the code sleeps 3; likewise
for elapsed 2 the claim requires the remaining budget 1, but the code sleeps
3. -/
theorem run_sleep_cex :
    (cyclePlan ⟨"A", 3, [0]⟩).2 = 3 ∧
    ((3 : Nat) ≠ (if 3 < 5 then 0 else 3 - 5) ∧ (3 : Nat) ≠ 3 - 2) := by
  refine ⟨rfl, by decide⟩

/-- C2 amended: after ticking all nodes, the region thread sleeps the full
configured tick period every cycle; elapsed time is never measured, there is
no missed-deadline branch, and over k cycles the total slept duration is
exactly k times the period while the trace holds 2 times the node count of
calls per cycle. -/
theorem run_sleeps_full_period (r : Region) (k : Nat) :
    (cyclePlan r).2 = r.tick ∧
    (runCycles r k).2 = k * r.tick ∧
    (runCycles r k).1.length = k * (2 * r.nodes.length) := by
  refine ⟨rfl, ?_, ?_⟩ <;>
    induction k with
    | zero => simp [runCycles]
    | succ m ih =>
      simp [runCycles, cyclePlan, ih, cycleTrace_length]
      ring

/-- C6 counterexample: firing the value 7 on an Output whose first connected
transport has a destroyed peer panics out of fire with the expect message
(modelled as Except.error), aborting the firing tick; in particular no
updated transport state survives, so the still-alive second transport is not
delivered to either — contradicting the claim that the failure is confined
to the one connection. -/
theorem fire_dead_peer_cex :
    fire [(⟨[], false⟩ : Transport Nat), ⟨[], true⟩] 7 =
      Except.error "Cannot send message" := rfl

/-- C6 amended: fire delivers one copy of the value to every connected
transport only when every peer is alive; as soon as any connected transport
has a destroyed peer, fire panics with "Cannot send message"
(expect at src/src/ports.rs line 22 and src/src/lib.rs line 133), aborting
the firing node's tick instead of confining the failure. -/
theorem fire_panics_on_dead_peer (txs : List (Transport α)) (t : α) :
    fire txs t =
      if txs.all (fun tr => tr.alive) then
        Except.ok (txs.map (fun tr => ⟨tr.queue ++ [t], tr.alive⟩))
      else Except.error "Cannot send message" :=
  fire_spec txs t

/-- C7 counterexample: dropping a running handle with one spawned thread
whose join fails (the thread panicked) sets the exit flag but then itself
panics with "Cannot join thread" (the expect at src/src/lib.rs line 65) —
the join failure escalates into a crash of the caller, contradicting the
claim that it is reported without panicking. -/
theorem drop_join_failure_cex :
    dropRunning ⟨[JoinOutcome.panicked], false⟩ =
      (true, Except.error "Cannot join thread") := rfl

/-- C7 amended: dropping the running handle sets the shared shutdown flag
and then joins the spawned threads in order; when every join succeeds, all
of them are joined before the drop completes, leaving no detached thread;
but a join failure makes the drop panic with "Cannot join thread", so it
escalates into a crash instead of being merely reported. -/
theorem drop_sets_flag_and_joins (r : RunningInfrastructure) :
    dropRunning r =
      (true,
        if r.threads.all JoinOutcome.isOk then Except.ok r.threads.length
        else Except.error "Cannot join thread") := by
  simp [dropRunning, joinAll_eq]

/-- C8: finalizing an infrastructure with zero regions fails with the
distinct NoRegions error and finalizing a region with zero nodes fails with
the distinct NoNodes error (FlexcoreError::NoNodes, src/src/region.rs lines
18-21); the two errors are distinct, and on any failed finalization no
thread is spawned, since Infrastructure::run is reachable only from a
successful build. -/
theorem build_rejects_empty (b : InfrastructureBuilder) (rb : RegionBuilder)
    (hb : b.regions = []) (hrb : rb.nodes = []) :
    b.build = Except.error FlexcoreError.NoRegions ∧
    rb.build = Except.error FlexcoreError.NoNodes ∧
    FlexcoreError.NoRegions ≠ FlexcoreError.NoNodes ∧
    threadsSpawned b.build = 0 ∧
    ∀ e : FlexcoreError, threadsSpawned (Except.error e) = 0 := by
  refine ⟨?_, ?_, by decide, ?_, fun e => rfl⟩ <;>
    simp [InfrastructureBuilder.build, RegionBuilder.build, hb, hrb, threadsSpawned]

/-- Witness for C8 at concrete empty builders. -/
theorem build_rejects_empty_witness :
    InfrastructureBuilder.build ⟨[]⟩ = Except.error FlexcoreError.NoRegions ∧
    RegionBuilder.build ⟨"R", 1, [], ⟨[]⟩⟩ = Except.error FlexcoreError.NoNodes ∧
    threadsSpawned (InfrastructureBuilder.build ⟨[]⟩) = 0 := by
  have h := build_rejects_empty ⟨[]⟩ ⟨"R", 1, [], ⟨[]⟩⟩ rfl rfl
  exact ⟨h.1, h.2.1, h.2.2.2.1⟩

/-- C9 counterexample: two region builders with empty node lists but
different accumulated infrastructure state (one has a previously built
region, the other none) produce the very same result
Err(FlexcoreError::NoNodes): the error carries no payload, so it cannot
preserve the accumulated build state, which is consumed and discarded with
self — the caller cannot retry with the previously accumulated builder. -/
theorem region_build_discards_state_cex :
    RegionBuilder.build ⟨"R", 1, [], ⟨[⟨"A", 1, [0]⟩]⟩⟩ =
      RegionBuilder.build ⟨"R", 1, [], ⟨[]⟩⟩ ∧
    (⟨[⟨"A", 1, [0]⟩]⟩ : InfrastructureBuilder) ≠ ⟨[]⟩ ∧
    RegionBuilder.build ⟨"R", 1, [], ⟨[⟨"A", 1, [0]⟩]⟩⟩ =
      Except.error FlexcoreError.NoNodes := by
  refine ⟨rfl, by decide, rfl⟩

/-- C9 amended: on the no-nodes error path RegionBuilder::build returns the
bare error FlexcoreError::NoNodes; no region is added to any infrastructure,
but the error value is identical for every accumulated build state — the
builder, including its accumulated infrastructure, is consumed and
discarded rather than preserved, so a retry must rebuild from scratch. -/
theorem region_build_error_drops_state (b : RegionBuilder) (h : b.nodes = []) :
    b.build = Except.error FlexcoreError.NoNodes ∧
    ∀ b2 : RegionBuilder, b2.nodes = [] → b.build = b2.build := by
  constructor
  · simp [RegionBuilder.build, h]
  · intro b2 h2
    simp [RegionBuilder.build, h, h2]

/-- Witness for C9 amended at a concrete empty-node builder. -/
theorem region_build_error_drops_state_witness :
    RegionBuilder.build ⟨"S", 2, [], ⟨[]⟩⟩ = Except.error FlexcoreError.NoNodes :=
  (region_build_error_drops_state ⟨"S", 2, [], ⟨[]⟩⟩ rfl).1

/-- C10 counterexample: on a state with one transport holding the two queued
values 1 and 2, the lib.rs snapshot of Input::fetch returns only [1]
(one try_recv per receiver, leaving 2 queued), while the ports.rs version
drains and returns [1, 2]; the two implementations are not extensionally
equal. -/
theorem fetch_versions_differ_cex :
    fetchLib [[1, 2]] = ([1], [[2]]) ∧
    fetchPorts [[1, 2]] = ([1, 2], [([] : List Nat)]) ∧
    (fetchLib [[1, 2]]).1 ≠ (fetchPorts [[(1 : Nat), 2]]).1 := by
  refine ⟨rfl, rfl, by decide⟩

/-- C10 amended: the lib.rs snapshot of Input::fetch agrees with the
ports.rs version exactly on the states where no transport holds more than
one queued value; on such states both return the same sequence and the same
residual queues. In general the lib.rs version returns at most the head of
each queue. -/
theorem fetch_versions_agree_on_short_queues (qs : List (List α))
    (h : ∀ q ∈ qs, q.length ≤ 1) :
    fetchLib qs = fetchPorts qs := by
  simpa [fetchLib, fetchPorts] using fetchLibAux_eq_fetchAux qs [] h

/-- Witness for C10 amended on a concrete short-queue state. -/
theorem fetch_versions_agree_witness :
    fetchLib [[3], ([] : List Nat)] = fetchPorts [[3], []] :=
  fetch_versions_agree_on_short_queues [[3], []] (by decide)

end Flexcore
